import Mathlib

/-!
Shallow embedding of src/tailscale_module.py (Waybar Tailscale module).

The program is a short-lived CLI: each invocation queries the external
`tailscale` agent, consults two small files in the temp directory (a pause
record holding an ISO timestamp, and a duration-preference index), and emits a
Waybar JSON record.  We model:

  * the two store files abstractly: a file is absent, holds a parsable value,
    or holds unparsable content (`datetime.fromisoformat` / `int` would raise);
  * wall-clock time as seconds (`Int`), passed explicitly as `now`;
  * each external subprocess outcome as an explicit input (the agent status
    query result, and Bool success flags for `tailscale up` / `down` and the
    clipboard backends);
  * the mutable file state threaded through every function that touches it.
-/

namespace Tailscale

/-- Content of the pause-record file (`/tmp/tailscale_pause_state`):
absent, a parsable ISO timestamp (modelled as seconds), or unparsable content
on which `datetime.fromisoformat` raises. -/
inductive PauseFile
  | absent
  | valid (expiresAt : Int)
  | corrupt
deriving DecidableEq, Repr

/-- Content of the duration-preference file (`/tmp/tailscale_pause_duration`):
absent, a parsable integer, or content on which `int()` raises. -/
inductive DurFile
  | absent
  | valid (index : Int)
  | corrupt
deriving DecidableEq, Repr

/-- The persisted state shared across invocations: the two store files. -/
structure St where
  pauseFile : PauseFile
  durFile : DurFile
deriving DecidableEq, Repr

/-- Parsed JSON of a successful `tailscale status --json` call:
the `BackendState` string (with the `.get` default `Unknown` already applied),
the `Online` flag of each peer, and the `TailscaleIPs` list. -/
structure AgentData where
  backendState : String
  peersOnline : List Bool
  tailscaleIPs : List String
deriving DecidableEq, Repr

/-- Outcome of the agent status subprocess call in `get_tailscale_status`:
either an exception escapes (command missing, timeout, or `json.loads`
failure), or the command returns with an exit code and (when zero) parsed
output. -/
inductive QueryResult
  | raises (msg : String)
  | returns (returncode : Int) (data : AgentData)
deriving DecidableEq, Repr

/-- The dictionaries `get_tailscale_status` can return, tagged by their
`state` field.  `other` is the final `else` branch that passes the raw
backend state through. -/
inductive StatusD
  | connected (machine_name : String) (peer_count : Nat) (tailscale_ip : String)
  | paused (machine_name : String) (pause_info : String)
  | stopped (machine_name : String)
  | other (state : String) (machine_name : String)
  | error (msg : String)
deriving DecidableEq, Repr

/-- The Waybar JSON record built by `format_output` / the error fallbacks. -/
structure Output where
  text : String
  tooltip : String
  css_class : String
deriving DecidableEq, Repr

/-- `self.pause_durations = [1, 5, 10, 15, 30, 60, 120]` (minutes). -/
def pause_durations : List Nat := [1, 5, 10, 15, 30, 60, 120]

/-- `self.default_duration_index = 1` (5 minutes). -/
def default_duration_index : Nat := 1

/-- `get_pause_status` (lines 116-135).  Missing file: `None`.  Parsable
timestamp still in the future: the remaining-time string.  Parsable timestamp
already passed: delete the file, `None`.  Unparsable content: the
`fromisoformat` exception is swallowed by `except Exception: pass` and the
function falls through to `return None` WITHOUT deleting the file. -/
def get_pause_status (now : Int) (s : St) : Option String × St :=
  match s.pauseFile with
  | .absent => (none, s)
  | .corrupt => (none, s)
  | .valid pause_end =>
      if now < pause_end then
        let remaining := pause_end - now
        let minutes := remaining.ediv 60
        let seconds := remaining.emod 60
        (some s!"{minutes}m {seconds}s remaining", s)
      else
        (none, { s with pauseFile := .absent })

/-- `get_pause_duration` (lines 137-147): returns `(minutes, index)`.  The
stored index is used only when `0 <= index < len(pause_durations)`; any other
case (missing file, unparsable content, out-of-range index) falls through to
the default entry. -/
def get_pause_duration (s : St) : Nat × Nat :=
  match s.durFile with
  | .valid index =>
      if 0 ≤ index ∧ index < (pause_durations.length : Int) then
        (pause_durations.getD index.toNat 0, index.toNat)
      else
        (pause_durations.getD default_duration_index 0, default_duration_index)
  | _ => (pause_durations.getD default_duration_index 0, default_duration_index)

/-- `set_pause_duration_index` (lines 149-158): clamps the index into range,
writes it, returns the corresponding minute value. -/
def set_pause_duration_index (index : Int) (s : St) : Nat × St :=
  let j := max 0 (min index ((pause_durations.length : Int) - 1))
  (pause_durations.getD j.toNat 0, { s with durFile := .valid j })

/-- `adjust_pause_duration` (lines 160-170): moves the index by one step,
clamped at the bounds, persists it, and reports whether the minute value
changed.  The source compares `direction == "up"`; anything else is down. -/
def adjust_pause_duration (direction : String) (s : St) : (Nat × Bool) × St :=
  let cur := get_pause_duration s
  let current_duration := cur.1
  let current_index := cur.2
  let new_index : Int :=
    if direction == "up" then
      min ((current_index : Int) + 1) ((pause_durations.length : Int) - 1)
    else
      max ((current_index : Int) - 1) 0
  let r := set_pause_duration_index new_index s
  ((r.1, current_duration != r.1), r.2)

/-- `get_tailscale_status` (lines 64-114), with the outcome of the status
subprocess and the result of `get_machine_name` (itself an external query)
passed in.  On `returncode == 0` the pause record is checked first and wins
over any backend state; on a non-zero exit code the `if` has no `else`, so
the function implicitly returns Python `None` (modelled as `none`). -/
def get_tailscale_status (q : QueryResult) (mname : String) (now : Int) (s : St) :
    Option StatusD × St :=
  match q with
  | .raises msg => (some (.error msg), s)
  | .returns rc data =>
      if rc == 0 then
        let p := get_pause_status now s
        match p.1 with
        | some info => (some (.paused mname info), p.2)
        | none =>
            if data.backendState == "Running" then
              let online_peers := data.peersOnline.countP (fun b => b)
              let tailscale_ip :=
                match data.tailscaleIPs with
                | [] => "N/A"
                | x :: _ => x
              (some (.connected mname online_peers tailscale_ip), p.2)
            else if data.backendState == "Stopped" then
              (some (.stopped mname), p.2)
            else
              (some (.other data.backendState mname), p.2)
      else (none, s)

/-- `format_output` (lines 172-202).  Reads the duration preference for the
tooltip; maps each state dict to text, tooltip and CSS class. -/
def format_output (status : StatusD) (s : St) : Output :=
  let current_duration := (get_pause_duration s).1
  match status with
  | .connected machine_name peer_count tailscale_ip =>
      { text := "🟢 TS",
        tooltip := s!"Tailscale Connected\nMachine: {machine_name}\nIP: {tailscale_ip}\nOnline Peers: {peer_count}\nPause Duration: {current_duration}min\n\nLeft Click: Toggle Connection\nRight Click: Pause {current_duration}min\nMiddle Click: Copy IP to clipboard\nScroll: Adjust pause duration",
        css_class := "connected" }
  | .paused machine_name pause_info =>
      { text := "⏸️ TS",
        tooltip := s!"Tailscale Paused\nMachine: {machine_name}\n{pause_info}\nPause Duration: {current_duration}min\n\nLeft Click: Resume\nRight Click: Stop\nMiddle Click: Copy IP to clipboard\nScroll: Adjust pause duration",
        css_class := "paused" }
  | .stopped machine_name =>
      { text := "🔴 TS",
        tooltip := s!"Tailscale Disconnected\nMachine: {machine_name}\nPause Duration: {current_duration}min\n\nLeft Click: Connect\nRight Click: Pause {current_duration}min\nMiddle Click: Copy IP to clipboard\nScroll: Adjust pause duration",
        css_class := "disconnected" }
  | .other state _ =>
      { text := "🔴 TS",
        tooltip := s!"Tailscale Error\nState: {state}\nError: Unknown error\nPause Duration: {current_duration}min\n\nLeft Click: Try Connect\nMiddle Click: Copy IP to clipboard\nScroll: Adjust pause duration",
        css_class := "error" }
  | .error msg =>
      { text := "🔴 TS",
        tooltip := s!"Tailscale Error\nState: Error\nError: {msg}\nPause Duration: {current_duration}min\n\nLeft Click: Try Connect\nMiddle Click: Copy IP to clipboard\nScroll: Adjust pause duration",
        css_class := "error" }

/-- `get_status_output` (lines 361-372): formats the resolved status; when
the resolver returned `None`, `format_output` raises (`None` is not
subscriptable) and the handler emits the generic error record (the tooltip
below stands for the Python `TypeError` text). -/
def get_status_output (q : QueryResult) (mname : String) (now : Int) (s : St) :
    Output × St :=
  let r := get_tailscale_status q mname now s
  match r.1 with
  | some d => (format_output d r.2, r.2)
  | none =>
      ({ text := "🔴 TS",
         tooltip := "Error: NoneType object is not subscriptable",
         css_class := "error" }, r.2)

/-- `start_tailscale` (lines 212-217): always clears any pause record, then
runs `sudo tailscale up`; `upOk` is that command's success. -/
def start_tailscale (upOk : Bool) (s : St) : Bool × St :=
  (upOk, { s with pauseFile := .absent })

/-- `stop_tailscale` (lines 219-224): clears any pause record, then runs
`sudo tailscale down`. -/
def stop_tailscale (downOk : Bool) (s : St) : Bool × St :=
  (downOk, { s with pauseFile := .absent })

/-- Result of `pause_tailscale`: its return value, the resulting file state,
and whether `schedule_auto_resume` was reached (a timer armed). -/
structure PauseOutcome where
  success : Bool
  st : St
  armed : Bool
deriving DecidableEq, Repr

/-- `pause_tailscale` (lines 226-239): reads the duration preference, runs
`sudo tailscale down` (success passed in as `downOk`); only on success writes
the pause record with `now + duration` and arms the scheduler. -/
def pause_tailscale (downOk : Bool) (now : Int) (s : St) : PauseOutcome :=
  let current_duration := (get_pause_duration s).1
  if downOk then
    let pause_end := now + (current_duration : Int) * 60
    { success := true
      st := { s with pauseFile := .valid pause_end }
      armed := true }
  else
    { success := false, st := s, armed := false }

/-- `auto_resume` (lines 266-287).  Returns the new file state and whether the
connect action (`start_tailscale`) was invoked.  Absent record: no-op.
Parsable record still in the future: no-op, record kept.  Parsable record
whose stored expiry has passed: remove the record and connect.  Unparsable
record: `fromisoformat` raises and the `except` branch removes the file
without connecting. -/
def auto_resume (upOk : Bool) (now : Int) (s : St) : St × Bool :=
  match s.pauseFile with
  | .absent => (s, false)
  | .valid pause_end =>
      if now ≥ pause_end then
        let s1 : St := { s with pauseFile := .absent }
        let r := start_tailscale upOk s1
        (r.2, true)
      else (s, false)
  | .corrupt => ({ s with pauseFile := .absent }, false)

/-- `copy_ip_to_clipboard` (lines 319-356).  Returns
`(return value, clipboard backend invoked, file state)`.  Resolves the
current status; only the Connected dict carries a `tailscale_ip` key, so
`.get` yields `N/A` for every other dict, and a `None` status raises
`AttributeError` which the outer handler turns into `return False`.  Only a
truthy IP different from `N/A` reaches the clipboard backends, whose combined
success is `clipOk`. -/
def copy_ip_to_clipboard (q : QueryResult) (mname : String) (now : Int) (s : St)
    (clipOk : Bool) : Bool × Bool × St :=
  let r := get_tailscale_status q mname now s
  match r.1 with
  | none => (false, false, r.2)
  | some d =>
      let ip_address :=
        match d with
        | .connected _ _ ip => ip
        | _ => "N/A"
      if ip_address ≠ "" ∧ ip_address ≠ "N/A" then
        (clipOk, true, r.2)
      else
        (false, false, r.2)

/-- The methods defined on class `WaybarTailscaleModule`.  Note there is no
`handle_scroll`: the lines 357-359 that were meant to be its body sit inside
`copy_ip_to_clipboard` after its final `return False` and are unreachable
dead code, so the class never defines the method. -/
def moduleMethods : List String :=
  ["__init__", "get_machine_name", "get_tailscale_status", "get_pause_status",
   "get_pause_duration", "set_pause_duration_index", "adjust_pause_duration",
   "format_output", "run_command", "start_tailscale", "stop_tailscale",
   "pause_tailscale", "schedule_auto_resume", "auto_resume", "handle_click",
   "copy_ip_to_clipboard", "get_status_output"]

/-- The `args.scroll` branch of `main` (lines 398-404): it calls
`module.handle_scroll(args.scroll)`.  If the class had that method it would
adjust the duration and fall through to printing the status output; since it
does not, Python raises `AttributeError`, which is caught by the outer
handler of `main` (lines 406-413) and the minimal error record is printed
with the stores untouched (the tooltip stands for the exception text). -/
def main_scroll (direction : String) (q : QueryResult) (mname : String)
    (now : Int) (s : St) : Output × St :=
  if moduleMethods.contains "handle_scroll" then
    let r := adjust_pause_duration direction s
    get_status_output q mname now r.2
  else
    ({ text := "❌ TS",
       tooltip := "Module Error: WaybarTailscaleModule object has no attribute handle_scroll",
       css_class := "error" }, s)

end Tailscale

namespace Tailscale

/-- C1 (counterexample): a pause file with unparsable content: `read` returns
none but the file still exists afterwards, contradicting the claim that the
corrupt file is deleted. -/
theorem C1_cex :
    (get_pause_status 0 ⟨PauseFile.corrupt, DurFile.absent⟩).1 = none ∧
    (get_pause_status 0 ⟨PauseFile.corrupt, DurFile.absent⟩).2.pauseFile
      = PauseFile.corrupt := by
  decide

/-- C1 (amended): for every pause file with unparsable content, the read
returns none without propagating the parse failure, but the file is left in
place unchanged — it is not deleted. -/
theorem C1_amended (now : Int) (s : St) (h : s.pauseFile = PauseFile.corrupt) :
    get_pause_status now s = (none, s) := by
  obtain ⟨pf, df⟩ := s
  cases h
  rfl

/-- C1 (witness): the amended statement at a concrete corrupt record. -/
theorem C1_witness :
    get_pause_status 0 ⟨PauseFile.corrupt, DurFile.absent⟩
      = (none, ⟨PauseFile.corrupt, DurFile.absent⟩) :=
  C1_amended 0 ⟨PauseFile.corrupt, DurFile.absent⟩ rfl

/-- C2: on an auto-resume firing, an absent record is a no-op; a record whose
stored expiry is still in the future is a no-op that keeps the record; a
record whose stored expiry has passed is deleted and the connect action is
invoked — the stored expiry authorizes the resume. -/
theorem C2_thm (upOk : Bool) (now : Int) (s : St) :
    (s.pauseFile = PauseFile.absent → auto_resume upOk now s = (s, false)) ∧
    (∀ t, s.pauseFile = PauseFile.valid t → now < t →
       auto_resume upOk now s = (s, false)) ∧
    (∀ t, s.pauseFile = PauseFile.valid t → t ≤ now →
       (auto_resume upOk now s).1.pauseFile = PauseFile.absent ∧
       (auto_resume upOk now s).2 = true) := by
  obtain ⟨pf, df⟩ := s
  refine ⟨?_, ?_, ?_⟩
  · intro h; cases h; rfl
  · intro t h hlt; cases h
    simp only [auto_resume]
    rw [if_neg (not_le.mpr hlt)]
  · intro t h hle; cases h
    simp only [auto_resume]
    rw [if_pos hle]
    exact ⟨rfl, rfl⟩

/-- C2 (witness): an expired record is removed and connect is invoked. -/
theorem C2_witness :
    (auto_resume true 100 ⟨PauseFile.valid 50, DurFile.absent⟩).1.pauseFile
      = PauseFile.absent ∧
    (auto_resume true 100 ⟨PauseFile.valid 50, DurFile.absent⟩).2 = true :=
  (C2_thm true 100 ⟨PauseFile.valid 50, DurFile.absent⟩).2.2 50 rfl (by decide)

/-- C3 (code bug): the scroll branch of `main` never adjusts the duration
preference: the class defines no `handle_scroll` method (its intended body is
unreachable code inside `copy_ip_to_clipboard`), so the call raises
`AttributeError` and the minimal module-error record is emitted with the
stores untouched, instead of the adjusted-duration status record the claim
describes. -/
theorem C3_bug (direction : String) (q : QueryResult) (mname : String)
    (now : Int) (s : St) :
    (main_scroll direction q mname now s).1.css_class = "error" ∧
    (main_scroll direction q mname now s).1.text = "❌ TS" ∧
    (main_scroll direction q mname now s).2 = s := by
  have h : ¬ (moduleMethods.contains "handle_scroll" = true) := by decide
  unfold main_scroll
  rw [if_neg h]
  exact ⟨rfl, rfl, rfl⟩

/-- C4: when the disconnect fails, pause writes no record, arms no timer and
reports failure with the state unchanged; when it succeeds, the record is
written with expiry `now + duration` (the configured preference, in seconds)
and the scheduler is armed. -/
theorem C4_thm (now : Int) (s : St) :
    pause_tailscale false now s = ⟨false, s, false⟩ ∧
    (pause_tailscale true now s).st.pauseFile
      = PauseFile.valid (now + ((get_pause_duration s).1 : Int) * 60) ∧
    (pause_tailscale true now s).armed = true := by
  refine ⟨rfl, ?_, rfl⟩
  simp [pause_tailscale]

/-- C5 (counterexample): when the agent command exits non-zero, the resolver
returns no status value at all (Python `None`), not the `Error` session
state the claim describes. -/
theorem C5_cex :
    (get_tailscale_status (QueryResult.returns 1 ⟨"Running", [], []⟩) "m" 0
      ⟨PauseFile.absent, DurFile.absent⟩).1 = none := by
  decide

/-- C5 (amended): when the agent command is missing or times out (the call
raises), the resolver returns `Error{message}`, rendered as the `error`
display class; when it merely exits non-zero, the resolver returns no status
(`None`) and the renderer still emits the `error` class only through the
generic exception fallback of `get_status_output`. -/
theorem C5_amended (msg mname : String) (now : Int) (s : St) (rc : Int)
    (d : AgentData) (hrc : rc ≠ 0) :
    (get_tailscale_status (QueryResult.raises msg) mname now s).1
      = some (StatusD.error msg) ∧
    (format_output (StatusD.error msg) s).css_class = "error" ∧
    (get_tailscale_status (QueryResult.returns rc d) mname now s).1 = none ∧
    (get_status_output (QueryResult.returns rc d) mname now s).1.css_class
      = "error" := by
  have h0 : (rc == 0) = false := by
    simp only [beq_eq_false_iff_ne, ne_eq]
    exact hrc
  refine ⟨rfl, rfl, ?_, ?_⟩
  · simp [get_tailscale_status, h0]
  · simp [get_status_output, get_tailscale_status, h0]

/-- C5 (witness): the amended statement at exit code 1. -/
theorem C5_witness :
    (get_tailscale_status (QueryResult.raises "boom") "m" 0
      ⟨PauseFile.absent, DurFile.absent⟩).1 = some (StatusD.error "boom") ∧
    (format_output (StatusD.error "boom")
      ⟨PauseFile.absent, DurFile.absent⟩).css_class = "error" ∧
    (get_tailscale_status (QueryResult.returns 1 ⟨"Running", [], []⟩) "m" 0
      ⟨PauseFile.absent, DurFile.absent⟩).1 = none ∧
    (get_status_output (QueryResult.returns 1 ⟨"Running", [], []⟩) "m" 0
      ⟨PauseFile.absent, DurFile.absent⟩).1.css_class = "error" :=
  C5_amended "boom" "m" 0 ⟨PauseFile.absent, DurFile.absent⟩ 1
    ⟨"Running", [], []⟩ (by decide)

/-- C6 (counterexample): a stored index of 99 (out of range) yields the
default entry `(5, 1)`, not the clamped upper bound `(120, 6)` the claim
describes. -/
theorem C6_cex :
    get_pause_duration ⟨PauseFile.absent, DurFile.valid 99⟩ = (5, 1) ∧
    get_pause_duration ⟨PauseFile.absent, DurFile.valid 99⟩ ≠ (120, 6) := by
  decide

/-- C6 (amended): a stored integer index outside `[0, length-1]` falls
through to the default entry (index 1, 5 minutes) exactly like a missing or
corrupt file; the stored index is never clamped on read. -/
theorem C6_amended (s : St) (i : Int) :
    (s.durFile = DurFile.valid i →
       i < 0 ∨ (pause_durations.length : Int) ≤ i →
       get_pause_duration s = (5, 1)) ∧
    (s.durFile = DurFile.absent → get_pause_duration s = (5, 1)) ∧
    (s.durFile = DurFile.corrupt → get_pause_duration s = (5, 1)) := by
  obtain ⟨pf, df⟩ := s
  refine ⟨?_, ?_, ?_⟩
  · intro h hout
    cases h
    simp only [get_pause_duration]
    rw [if_neg]
    · rfl
    · rcases hout with h1 | h1
      · exact fun hc => absurd hc.1 (not_le.mpr h1)
      · exact fun hc => absurd hc.2 (not_lt.mpr h1)
  · intro h; cases h; rfl
  · intro h; cases h; rfl

/-- C6 (witness): the amended statement at the concrete stored index -3. -/
theorem C6_witness :
    get_pause_duration ⟨PauseFile.absent, DurFile.valid (-3)⟩ = (5, 1) :=
  (C6_amended ⟨PauseFile.absent, DurFile.valid (-3)⟩ (-3)).1 rfl
    (Or.inl (by decide))

/-- C7: whenever the agent status query succeeds (exit code 0) and the pause
store reports an unexpired pause, the resolved state is `Paused`, whatever
backend state, peers and addresses the agent reported. -/
theorem C7_thm (d : AgentData) (mname : String) (now : Int) (s : St)
    (info : String) (h : (get_pause_status now s).1 = some info) :
    (get_tailscale_status (QueryResult.returns 0 d) mname now s).1
      = some (StatusD.paused mname info) := by
  simp [get_tailscale_status, h]

/-- C7 (witness): a running backend with online peers still resolves as
Paused while an unexpired record is present. -/
theorem C7_witness :
    (get_tailscale_status
      (QueryResult.returns 0 ⟨"Running", [true], ["100.64.0.5"]⟩) "m" 0
      ⟨PauseFile.valid 185, DurFile.absent⟩).1
      = some (StatusD.paused "m" "3m 5s remaining") :=
  C7_thm ⟨"Running", [true], ["100.64.0.5"]⟩ "m" 0
    ⟨PauseFile.valid 185, DurFile.absent⟩ "3m 5s remaining" rfl

/-- C8: duration adjustment is idempotent at the bounds: with the stored
index at the maximum, "up" reports `changed = false` and leaves the whole
persisted state unchanged; symmetrically for "down" at the minimum. -/
theorem C8_thm (s : St) :
    (s.durFile = DurFile.valid 6 →
       adjust_pause_duration "up" s = ((120, false), s)) ∧
    (s.durFile = DurFile.valid 0 →
       adjust_pause_duration "down" s = ((1, false), s)) := by
  obtain ⟨pf, df⟩ := s
  constructor
  · intro h; cases h; rfl
  · intro h; cases h; rfl

/-- C8 (witness): both bounds at concrete states. -/
theorem C8_witness :
    adjust_pause_duration "up" ⟨PauseFile.absent, DurFile.valid 6⟩
      = ((120, false), ⟨PauseFile.absent, DurFile.valid 6⟩) ∧
    adjust_pause_duration "down" ⟨PauseFile.absent, DurFile.valid 0⟩
      = ((1, false), ⟨PauseFile.absent, DurFile.valid 0⟩) :=
  ⟨(C8_thm ⟨PauseFile.absent, DurFile.valid 6⟩).1 rfl,
   (C8_thm ⟨PauseFile.absent, DurFile.valid 0⟩).2 rfl⟩

/-- C9: when the auto-resume entry point finds a pause file with unparsable
content, the `fromisoformat` failure lands in the exception branch, which
deletes the file and never invokes the connect action. -/
theorem C9_thm (upOk : Bool) (now : Int) (s : St)
    (h : s.pauseFile = PauseFile.corrupt) :
    auto_resume upOk now s = ({ s with pauseFile := PauseFile.absent }, false) := by
  obtain ⟨pf, df⟩ := s
  cases h
  rfl

/-- C9 (witness): a concrete corrupt record is removed without connecting. -/
theorem C9_witness :
    auto_resume true 0 ⟨PauseFile.corrupt, DurFile.absent⟩
      = (⟨PauseFile.absent, DurFile.absent⟩, false) :=
  C9_thm true 0 ⟨PauseFile.corrupt, DurFile.absent⟩ rfl

/-- C10: whenever the resolved session state is not Connected (so the status
dict carries no address field, or the resolver returned no dict at all), the
middle-click copy invokes no clipboard backend and returns false. -/
theorem C10_thm (q : QueryResult) (mname : String) (now : Int) (s : St)
    (clipOk : Bool)
    (h : ∀ mn pc ip, (get_tailscale_status q mname now s).1
           ≠ some (StatusD.connected mn pc ip)) :
    (copy_ip_to_clipboard q mname now s clipOk).1 = false ∧
    (copy_ip_to_clipboard q mname now s clipOk).2.1 = false := by
  rcases hr : (get_tailscale_status q mname now s).1 with _ | d
  · simp [copy_ip_to_clipboard, hr]
  · cases d with
    | connected mn pc ip => exact absurd hr (h mn pc ip)
    | paused mn pi => simp [copy_ip_to_clipboard, hr]
    | stopped mn => simp [copy_ip_to_clipboard, hr]
    | other st mn => simp [copy_ip_to_clipboard, hr]
    | error msg => simp [copy_ip_to_clipboard, hr]

/-- C10 (witness): with a stopped backend the copy is a no-op. -/
theorem C10_witness :
    (copy_ip_to_clipboard (QueryResult.returns 0 ⟨"Stopped", [], []⟩) "m" 0
      ⟨PauseFile.absent, DurFile.absent⟩ true).1 = false ∧
    (copy_ip_to_clipboard (QueryResult.returns 0 ⟨"Stopped", [], []⟩) "m" 0
      ⟨PauseFile.absent, DurFile.absent⟩ true).2.1 = false :=
  C10_thm (QueryResult.returns 0 ⟨"Stopped", [], []⟩) "m" 0
    ⟨PauseFile.absent, DurFile.absent⟩ true
    (by
      intro mn pc ip hc
      exact StatusD.noConfusion (Option.some.inj hc))

end Tailscale
